import Mathlib

/-!
Shallow embedding of `src/packages/arb-ts/src/lib/message/L1Transaction.ts`
(the `L1TransactionReceipt` class and its methods), together with the small
pieces of its collaborators that the file calls into.  32-byte words
(addresses, hashes, topics) are modelled as `Nat`; byte strings as `List Nat`
of byte values; a JavaScript `throw` in otherwise-pure code as `Option`
(`none` = throw) or `Except` when the thrown error carries structure.
-/

/-- A transaction log entry, per the data model: `topics[0]` is the event
signature hash, later topics carry indexed arguments, `data` the unindexed
payload words. -/
structure Log where
  topics : List Nat
  data : List Nat
  address : Nat
  transactionHash : Nat
  deriving Repr, DecidableEq

/-- Modelled from the spec: the event-signature hash of `InboxMessageDelivered`,
produced by the external ABI layer (`Inbox__factory.createInterface().getEventTopic`),
which is not under `src/`.  A fixed protocol constant. -/
def inboxMessageDeliveredTopic : Nat :=
  0xff64905f73a67fb594e0f940a8075a860db489ad991e032f48c81123eb52d60b

/-- Modelled from the spec: the event-signature hash of
`InboxMessageDeliveredFromOrigin`, produced by the external ABI layer,
which is not under `src/`.  A fixed protocol constant, distinct from
`inboxMessageDeliveredTopic`. -/
def inboxMessageDeliveredFromOriginTopic : Nat :=
  0xab532385be8f1005a4b6ba8fa20a2245facb346134ac739fe9a5198dc1580b9c

/-- Modelled from the spec: the event-signature hash of `DepositInitiated`,
produced by the external ABI layer (`L1ERC20Gateway__factory`), which is not
under `src/`.  A fixed protocol constant, distinct from the two inbox topics. -/
def depositInitiatedTopic : Nat :=
  0xb8910b9960c443aac3240b98585384e3a6f109fbf6969e264c3f183d69aba7e1

/-- The raw `TransactionReceipt` shape from `@ethersproject/providers`:
the input of the `L1TransactionReceipt` constructor.  `from` is a Lean
keyword, so that field is spelled `fromAddress` here. -/
structure TransactionReceipt where
  toAddress : Nat
  fromAddress : Nat
  contractAddress : Nat
  transactionIndex : Nat
  root : Option Nat
  gasUsed : Nat
  logsBloom : Nat
  blockHash : Nat
  transactionHash : Nat
  logs : List Log
  blockNumber : Nat
  confirmations : Nat
  cumulativeGasUsed : Nat
  effectiveGasPrice : Nat
  byzantium : Bool
  type : Nat
  status : Option Nat
  deriving Repr, DecidableEq

/-- The `L1TransactionReceipt` value object: same field list as the raw
receipt (the class implements `TransactionReceipt`). -/
structure L1TransactionReceipt where
  toAddress : Nat
  fromAddress : Nat
  contractAddress : Nat
  transactionIndex : Nat
  root : Option Nat
  gasUsed : Nat
  logsBloom : Nat
  blockHash : Nat
  transactionHash : Nat
  logs : List Log
  blockNumber : Nat
  confirmations : Nat
  cumulativeGasUsed : Nat
  effectiveGasPrice : Nat
  byzantium : Bool
  type : Nat
  status : Option Nat
  deriving Repr, DecidableEq

/-- The `L1TransactionReceipt` constructor: a field-for-field copy of the raw
receipt (source lines 61-79). -/
def L1TransactionReceipt.ofTransactionReceipt (tx : TransactionReceipt) :
    L1TransactionReceipt :=
  { toAddress := tx.toAddress
    fromAddress := tx.fromAddress
    contractAddress := tx.contractAddress
    transactionIndex := tx.transactionIndex
    root := tx.root
    gasUsed := tx.gasUsed
    logsBloom := tx.logsBloom
    blockHash := tx.blockHash
    transactionHash := tx.transactionHash
    logs := tx.logs
    blockNumber := tx.blockNumber
    confirmations := tx.confirmations
    cumulativeGasUsed := tx.cumulativeGasUsed
    effectiveGasPrice := tx.effectiveGasPrice
    byzantium := tx.byzantium
    type := tx.type
    status := tx.status }

/-- A transaction fetched back by hash; only its call data matters here. -/
structure TransactionResponse where
  data : List Nat
  deriving Repr, DecidableEq

/-- The destination- or source-chain connectivity handle (`SignerOrProvider`).
`chainId` models the one chain-metadata call `provider.getNetwork()`;
`getTransaction` models `provider.getTransaction(hash)`.
`SignerProviderUtils.getProviderOrThrow` is modelled as the identity: the
handle always carries a provider. -/
structure SignerOrProvider where
  chainId : Nat
  getTransaction : Nat → TransactionResponse

/-- A cross-chain message object, bound to the destination handle, the
precomputed retryable-creation identifier, and the message sequence number. -/
structure L1ToL2Message where
  l2SignerOrProvider : SignerOrProvider
  retryableCreationId : Nat
  messageNumber : Nat

/-- Modelled from the spec: `calculateRetryableCreationId` lives in
`L1ToL2Message.ts`, which is not under `src/`.  Per the spec it is a pure,
total, deterministic map from (destination chain id, message sequence number)
to a fixed-width identifier, built from the two zero-padded 32-byte fields and
injective on them (spec section 8, property 1).  We model the identifier as the
value of the 64-byte concatenation of the two 32-byte fields. -/
def L1ToL2Message.calculateRetryableCreationId (l2ChainId messageNumber : Nat) : Nat :=
  (l2ChainId % 2 ^ 256) * 2 ^ 256 + messageNumber % 2 ^ 256

/-- Modelled from the spec: `fromRetryableCreationId` lives in
`L1ToL2Message.ts`, which is not under `src/`.  Per the spec it constructs a
message object bound to `(handle, identifier, sequenceNumber)`. -/
def L1ToL2Message.fromRetryableCreationId (l2SignerOrProvider : SignerOrProvider)
    (retryableCreationId : Nat) (messageNumber : Nat) : L1ToL2Message :=
  { l2SignerOrProvider := l2SignerOrProvider
    retryableCreationId := retryableCreationId
    messageNumber := messageNumber }

/-- The predicate the filter in `getMessageNumbers` applies (source lines
99-103): `topics[0]` equals one of the two message-delivery event-signature
hashes. -/
def isMessageDeliveryLog (log : Log) : Bool :=
  log.topics.head? == some inboxMessageDeliveredTopic ||
  log.topics.head? == some inboxMessageDeliveredFromOriginTopic

/-- `getMessageNumbers` (source lines 85-103): filter the receipt's logs to
those whose `topics[0]` equals either inbox event topic, then map each to the
integer decoded from `topics[1]`.  `BigNumber.from(log.topics[1])` throws when
the topic is absent; we model that as `none` via `mapM`. -/
def L1TransactionReceipt.getMessageNumbers (r : L1TransactionReceipt) :
    Option (List Nat) :=
  let logs := r.logs.filter isMessageDeliveryLog
  logs.mapM fun log => log.topics[1]?

/-- `getL1ToL2Messages` (source lines 109-133): resolve the destination chain
id from the handle, extract the message numbers, return `[]` when there are
none, else one message per number built from the computed identifier.  The
outer `Option` propagates a `getMessageNumbers` throw. -/
def L1TransactionReceipt.getL1ToL2Messages (r : L1TransactionReceipt)
    (l2SignerOrProvider : SignerOrProvider) : Option (List L1ToL2Message) :=
  let chainID := l2SignerOrProvider.chainId
  (r.getMessageNumbers).map fun messageNumbers =>
    if messageNumbers.length = 0 then []
    else messageNumbers.map fun mn =>
      L1ToL2Message.fromRetryableCreationId l2SignerOrProvider
        (L1ToL2Message.calculateRetryableCreationId chainID mn) mn

/-- The errors `getL1ToL2Message` throws (`ArbTsError` with the three
diagnostic message shapes of source lines 154-165). -/
inductive ArbTsError where
  | noMessageFound (transactionHash : Nat)
  | indexOutOfRange (transactionHash : Nat) (index : Int) (messageCount : Nat)
  | ambiguousMessageCount (transactionHash : Nat) (messageCount : Nat)
  deriving Repr, DecidableEq

/-- JavaScript array indexing `arr[i]`: a negative or out-of-bounds index
yields `undefined`, modelled as `none`. -/
def jsIndex (l : List L1ToL2Message) (i : Int) : Option L1ToL2Message :=
  if i < 0 then none else l[i.toNat]?

/-- `getL1ToL2Message` (source lines 146-167): fetch all messages, then
  - zero messages: throw `NoMessageFound`;
  - an index is given and `index >= count`: throw `IndexOutOfRange`;
  - no index and more than one message: throw `AmbiguousMessageCount`;
  - otherwise return `allL1ToL2Messages[messageIndex || 0]` (JavaScript
    `||`: an absent index, and index `0` itself, both select index `0`).
The outer `Option` propagates a `getMessageNumbers` throw; the inner value is
`Option` because a negative index makes the array lookup yield `undefined`. -/
def L1TransactionReceipt.getL1ToL2Message (r : L1TransactionReceipt)
    (l2SignerOrProvider : SignerOrProvider) (messageIndex : Option Int) :
    Option (Except ArbTsError (Option L1ToL2Message)) :=
  (r.getL1ToL2Messages l2SignerOrProvider).map fun allL1ToL2Messages =>
    let messageCount : Nat := allL1ToL2Messages.length
    if messageCount = 0 then
      Except.error (ArbTsError.noMessageFound r.transactionHash)
    else
      match messageIndex with
      | some i =>
        if (messageCount : Int) ≤ i then
          Except.error (ArbTsError.indexOutOfRange r.transactionHash i messageCount)
        else
          Except.ok (jsIndex allL1ToL2Messages i)
      | none =>
        if 1 < messageCount then
          Except.error (ArbTsError.ambiguousMessageCount r.transactionHash messageCount)
        else
          Except.ok (jsIndex allL1ToL2Messages 0)

/-- The decoded argument tuple of a `DepositInitiated` event (spec section 3:
sender, receiver, token, amount, sequence number). -/
structure DepositArgs where
  l1Token : Nat
  fromAddress : Nat
  toAddress : Nat
  sequenceNumber : Nat
  amount : Nat
  deriving Repr, DecidableEq, Inhabited

/-- The decode failure of a matching deposit log, carrying the offending
log's index within the matching sequence. -/
inductive LogDecodeError where
  | logDecodeError (index : Nat)
  deriving Repr, DecidableEq

/-- Modelled from the spec: `iface.parseLog` belongs to the external ABI
layer, not under `src/`.  Per the spec it decodes one log against the known
`DepositInitiated` argument schema and fails on schema mismatch.  The schema
is modelled with three indexed arguments in `topics[1..3]` and two data
words. -/
def parseDepositLog (log : Log) : Option DepositArgs :=
  match log.topics, log.data with
  | [_, f, t, s], [tok, amt] =>
    some { l1Token := tok, fromAddress := f, toAddress := t, sequenceNumber := s, amount := amt }
  | _, _ => none

/-- Decode a run of matching deposit logs, failing with the index of the
first log whose decode fails. -/
def decodeDepositLogs (i : Nat) : List Log → Except LogDecodeError (List DepositArgs)
  | [] => Except.ok []
  | log :: rest =>
    match parseDepositLog log with
    | some args =>
      match decodeDepositLogs (i + 1) rest with
      | Except.ok tl => Except.ok (args :: tl)
      | Except.error e => Except.error e
    | none => Except.error (LogDecodeError.logDecodeError i)

/-- The predicate the filter in `getDepositEvents` applies (source line 177):
`topics[0]` equals the `DepositInitiated` event-signature hash. -/
def isDepositInitiatedLog (log : Log) : Bool :=
  log.topics.head? == some depositInitiatedTopic

/-- `getDepositEvents` (source lines 173-181): filter the logs by the
`DepositInitiated` event topic and decode each match against the schema. -/
def L1TransactionReceipt.getDepositEvents (r : L1TransactionReceipt) :
    Except LogDecodeError (List DepositArgs) :=
  let logs := r.logs.filter isDepositInitiatedLog
  decodeDepositLogs 0 logs

/-- The fixed 4-byte `depositEth` function selector `0x0f4d14e9`
(source line 194), as bytes. -/
def depositEth_FUNCTION_SIG : List Nat := [0x0f, 0x4d, 0x14, 0xe9]

/-- `looksLikeEthDeposit` (source lines 187-196): re-fetch the transaction by
the receipt's hash and test whether its call data starts with the
`depositEth` selector. -/
def L1TransactionReceipt.looksLikeEthDeposit (r : L1TransactionReceipt)
    (l1SignerOrProvider : SignerOrProvider) : Bool :=
  let txRes := l1SignerOrProvider.getTransaction r.transactionHash
  depositEth_FUNCTION_SIG.isPrefixOf txRes.data

/-- A `ContractTransaction` before patching: its `wait` resolves to a raw
receipt. -/
structure ContractTransaction where
  wait : Option Nat → TransactionReceipt

/-- An `L1ContractTransaction`: its `wait` resolves to an
`L1TransactionReceipt`. -/
structure L1ContractTransaction where
  wait : Option Nat → L1TransactionReceipt

/-- `monkeyPatchWait` (source lines 203-212): capture the original `wait` and
replace it with one that awaits the same confirmations and wraps the result
into an `L1TransactionReceipt`. -/
def L1TransactionReceipt.monkeyPatchWait (contractTransaction : ContractTransaction) :
    L1ContractTransaction :=
  let wait := contractTransaction.wait
  { wait := fun confirmations =>
      L1TransactionReceipt.ofTransactionReceipt (wait confirmations) }

/-! ### Concrete fixtures used to evaluate the definitions -/

/-- A destination-chain handle with chain id 412346 whose transactions carry
`depositEth` call data. -/
def testProvider : SignerOrProvider :=
  { chainId := 412346
    getTransaction := fun _ => { data := [0x0f, 0x4d, 0x14, 0xe9, 0] } }

/-- A log with the `InboxMessageDelivered` topic and sequence number 5. -/
def testLogDelivered : Log :=
  { topics := [inboxMessageDeliveredTopic, 5], data := [], address := 1,
    transactionHash := 100 }

/-- A log whose `topics[0]` matches no known event signature. -/
def testLogUnrelated : Log :=
  { topics := [77, 9], data := [], address := 2, transactionHash := 100 }

/-- A log with the `InboxMessageDeliveredFromOrigin` topic and sequence
number 6. -/
def testLogFromOrigin : Log :=
  { topics := [inboxMessageDeliveredFromOriginTopic, 6], data := [],
    address := 3, transactionHash := 100 }

/-- A log carrying a well-formed `DepositInitiated` event. -/
def testDepositLog : Log :=
  { topics := [depositInitiatedTopic, 21, 22, 23], data := [20, 1000],
    address := 4, transactionHash := 101 }

/-- A receipt with two message-delivery logs interleaved with one unrelated
log. -/
def testReceipt : L1TransactionReceipt :=
  { toAddress := 10, fromAddress := 11, contractAddress := 0,
    transactionIndex := 0, root := none, gasUsed := 21000, logsBloom := 0,
    blockHash := 12, transactionHash := 100,
    logs := [testLogDelivered, testLogUnrelated, testLogFromOrigin],
    blockNumber := 7, confirmations := 1, cumulativeGasUsed := 21000,
    effectiveGasPrice := 1, byzantium := true, type := 2, status := some 1 }

/-- A receipt with no message-delivery logs at all. -/
def testEmptyReceipt : L1TransactionReceipt :=
  { toAddress := 10, fromAddress := 11, contractAddress := 0,
    transactionIndex := 1, root := none, gasUsed := 21000, logsBloom := 0,
    blockHash := 12, transactionHash := 102, logs := [testLogUnrelated],
    blockNumber := 7, confirmations := 1, cumulativeGasUsed := 42000,
    effectiveGasPrice := 1, byzantium := true, type := 2, status := some 1 }

/-- A receipt with one deposit-initiated log and one unrelated log. -/
def testDepositReceipt : L1TransactionReceipt :=
  { toAddress := 10, fromAddress := 11, contractAddress := 0,
    transactionIndex := 2, root := none, gasUsed := 90000, logsBloom := 0,
    blockHash := 12, transactionHash := 101,
    logs := [testLogUnrelated, testDepositLog],
    blockNumber := 7, confirmations := 1, cumulativeGasUsed := 90000,
    effectiveGasPrice := 1, byzantium := true, type := 2, status := some 1 }

/-- The two messages `testReceipt` yields with `testProvider`. -/
def testMsgs : List L1ToL2Message :=
  [L1ToL2Message.fromRetryableCreationId testProvider
      (L1ToL2Message.calculateRetryableCreationId 412346 5) 5,
   L1ToL2Message.fromRetryableCreationId testProvider
      (L1ToL2Message.calculateRetryableCreationId 412346 6) 6]

/-! ### Theorems -/

/-- C1: the message identifier calculation is a deterministic injective map:
computing the identifier for `(c, n)` twice yields the identical identifier,
and the identifier for `(c, n)` differs from that for `(c, n')` when
`n ≠ n'` and from that for `(c', n)` when `c ≠ c'` (chain ids and sequence
numbers are 32-byte fields, hence below `2 ^ 256`). -/
theorem calculateRetryableCreationId_deterministic_injective
    (c c' n n' : Nat) (hc : c < 2 ^ 256) (hc' : c' < 2 ^ 256)
    (hn : n < 2 ^ 256) (hn' : n' < 2 ^ 256) :
    L1ToL2Message.calculateRetryableCreationId c n
        = L1ToL2Message.calculateRetryableCreationId c n
    ∧ (n ≠ n' → L1ToL2Message.calculateRetryableCreationId c n
        ≠ L1ToL2Message.calculateRetryableCreationId c n')
    ∧ (c ≠ c' → L1ToL2Message.calculateRetryableCreationId c n
        ≠ L1ToL2Message.calculateRetryableCreationId c' n) := by
  unfold L1ToL2Message.calculateRetryableCreationId
  rw [Nat.mod_eq_of_lt hc, Nat.mod_eq_of_lt hc', Nat.mod_eq_of_lt hn,
    Nat.mod_eq_of_lt hn']
  refine ⟨rfl, ?_, ?_⟩
  · intro hne heq
    exact hne (Nat.add_left_cancel heq)
  · intro hne heq
    have h2 := Nat.add_right_cancel heq
    exact hne (Nat.eq_of_mul_eq_mul_right (by positivity) h2)

/-- Witness for C1 at chain ids 412346, 5 and sequence numbers 3, 4. -/
theorem calculateRetryableCreationId_deterministic_injective_witness :
    L1ToL2Message.calculateRetryableCreationId 412346 3
        = L1ToL2Message.calculateRetryableCreationId 412346 3
    ∧ ((3 : Nat) ≠ 4 → L1ToL2Message.calculateRetryableCreationId 412346 3
        ≠ L1ToL2Message.calculateRetryableCreationId 412346 4)
    ∧ ((412346 : Nat) ≠ 5 → L1ToL2Message.calculateRetryableCreationId 412346 3
        ≠ L1ToL2Message.calculateRetryableCreationId 5 3) :=
  calculateRetryableCreationId_deterministic_injective 412346 5 3 4
    (by norm_num) (by norm_num) (by norm_num) (by norm_num)

/-- C8: the `L1TransactionReceipt` constructor copies every field of the raw
receipt, so each field of the constructed value equals the corresponding
field of the input. -/
theorem ofTransactionReceipt_copies_every_field (tx : TransactionReceipt) :
    (L1TransactionReceipt.ofTransactionReceipt tx).toAddress = tx.toAddress
    ∧ (L1TransactionReceipt.ofTransactionReceipt tx).fromAddress = tx.fromAddress
    ∧ (L1TransactionReceipt.ofTransactionReceipt tx).contractAddress = tx.contractAddress
    ∧ (L1TransactionReceipt.ofTransactionReceipt tx).transactionIndex = tx.transactionIndex
    ∧ (L1TransactionReceipt.ofTransactionReceipt tx).root = tx.root
    ∧ (L1TransactionReceipt.ofTransactionReceipt tx).gasUsed = tx.gasUsed
    ∧ (L1TransactionReceipt.ofTransactionReceipt tx).logsBloom = tx.logsBloom
    ∧ (L1TransactionReceipt.ofTransactionReceipt tx).blockHash = tx.blockHash
    ∧ (L1TransactionReceipt.ofTransactionReceipt tx).transactionHash = tx.transactionHash
    ∧ (L1TransactionReceipt.ofTransactionReceipt tx).logs = tx.logs
    ∧ (L1TransactionReceipt.ofTransactionReceipt tx).blockNumber = tx.blockNumber
    ∧ (L1TransactionReceipt.ofTransactionReceipt tx).confirmations = tx.confirmations
    ∧ (L1TransactionReceipt.ofTransactionReceipt tx).cumulativeGasUsed = tx.cumulativeGasUsed
    ∧ (L1TransactionReceipt.ofTransactionReceipt tx).effectiveGasPrice = tx.effectiveGasPrice
    ∧ (L1TransactionReceipt.ofTransactionReceipt tx).byzantium = tx.byzantium
    ∧ (L1TransactionReceipt.ofTransactionReceipt tx).type = tx.type
    ∧ (L1TransactionReceipt.ofTransactionReceipt tx).status = tx.status :=
  ⟨rfl, rfl, rfl, rfl, rfl, rfl, rfl, rfl, rfl, rfl, rfl, rfl, rfl, rfl,
    rfl, rfl, rfl⟩

/-- C9: after `monkeyPatchWait`, awaiting the transaction's
`wait(confirmations)` yields an `L1TransactionReceipt` constructed from
exactly the receipt the original `wait` produces with the same
`confirmations` argument. -/
theorem monkeyPatchWait_wraps_original_wait (ct : ContractTransaction)
    (confirmations : Option Nat) :
    (L1TransactionReceipt.monkeyPatchWait ct).wait confirmations
      = L1TransactionReceipt.ofTransactionReceipt (ct.wait confirmations) :=
  rfl

/-- The 4-byte selector byte test, spelled out: `isPrefixOf` by
`depositEth_FUNCTION_SIG` holds exactly on byte strings beginning
`0x0f 0x4d 0x14 0xe9`. -/
theorem selector_isPrefixOf_iff (l : List Nat) :
    depositEth_FUNCTION_SIG.isPrefixOf l = true ↔
      ∃ rest, l = 0x0f :: 0x4d :: 0x14 :: 0xe9 :: rest := by
  unfold depositEth_FUNCTION_SIG
  rcases l with _ | ⟨a, _ | ⟨b, _ | ⟨c, _ | ⟨d, rest⟩⟩⟩⟩ <;>
    simp [List.isPrefixOf]
  omega

/-- C7: `looksLikeEthDeposit` fetches the transaction for the receipt's
transaction hash from the handle and returns `true` exactly when its call
data begins with the fixed 4-byte selector `0x0f4d14e9`. -/
theorem looksLikeEthDeposit_selector (p : SignerOrProvider)
    (r : L1TransactionReceipt) :
    r.looksLikeEthDeposit p = true ↔
      ∃ rest, (p.getTransaction r.transactionHash).data
          = 0x0f :: 0x4d :: 0x14 :: 0xe9 :: rest := by
  unfold L1TransactionReceipt.looksLikeEthDeposit
  exact selector_isPrefixOf_iff _

/-- Helper: mapping each log to its second topic succeeds and returns the
second topics in order whenever every log has at least two topics. -/
theorem mapM_second_topic (ls : List Log)
    (h : ∀ log ∈ ls, 1 < log.topics.length) :
    (ls.mapM fun log => log.topics[1]?)
      = some (ls.map fun log => (log.topics[1]?).getD 0) := by
  induction ls with
  | nil => rfl
  | cons a as ih =>
    have ha : 1 < a.topics.length := h a (List.mem_cons_self a as)
    have has : ∀ log ∈ as, 1 < log.topics.length :=
      fun log hl => h log (List.mem_cons_of_mem a hl)
    have h1 : a.topics[1]? = some a.topics[1] := List.getElem?_eq_getElem ha
    rw [List.mapM_cons, ih has]
    simp [h1]

/-- C2: on a receipt whose matching logs (those with `topics[0]` equal to one
of the two message-delivery event-signature hashes) all carry a second topic,
`getMessageNumbers` returns exactly the integers decoded from `topics[1]` of
the matching logs, in log order; unrelated logs are excluded by the filter. -/
theorem getMessageNumbers_extraction (r : L1TransactionReceipt)
    (h : ∀ log ∈ r.logs.filter isMessageDeliveryLog, 1 < log.topics.length) :
    r.getMessageNumbers
      = some ((r.logs.filter isMessageDeliveryLog).map
          fun log => (log.topics[1]?).getD 0) :=
  mapM_second_topic _ h

/-- Witness for C2: two matching logs interleaved with one unrelated log
yield exactly the two sequence numbers, in log order. -/
theorem getMessageNumbers_extraction_witness :
    testReceipt.getMessageNumbers = some [5, 6] :=
  (getMessageNumbers_extraction testReceipt (by decide)).trans (by decide)

/-- C4: a receipt with zero message-delivery logs yields
`getL1ToL2Messages = some []`: empty extraction is success, not a throw. -/
theorem getL1ToL2Messages_empty_is_success (p : SignerOrProvider)
    (r : L1TransactionReceipt)
    (h : ∀ log ∈ r.logs, isMessageDeliveryLog log = false) :
    r.getL1ToL2Messages p = some [] := by
  have hfilter : r.logs.filter isMessageDeliveryLog = [] :=
    List.filter_eq_nil_iff.mpr (by simpa using h)
  unfold L1TransactionReceipt.getL1ToL2Messages
    L1TransactionReceipt.getMessageNumbers
  rw [hfilter]
  rfl

/-- Witness for C4: a receipt whose only log is unrelated yields
`some []`. -/
theorem getL1ToL2Messages_empty_is_success_witness :
    testEmptyReceipt.getL1ToL2Messages testProvider = some [] :=
  getL1ToL2Messages_empty_is_success testProvider testEmptyReceipt (by decide)

/-- C5: when extraction succeeds, `getL1ToL2Messages` resolves the chain id
from the handle and returns one message per extracted sequence number, in
order, each built from the handle, the identifier computed for
`(chain id, sequence number)`, and the sequence number; the result's length
equals the length of the extraction result. -/
theorem getL1ToL2Messages_resolution (p : SignerOrProvider)
    (r : L1TransactionReceipt) (mns : List Nat)
    (hm : r.getMessageNumbers = some mns) :
    r.getL1ToL2Messages p
        = some (mns.map fun mn =>
            L1ToL2Message.fromRetryableCreationId p
              (L1ToL2Message.calculateRetryableCreationId p.chainId mn) mn)
    ∧ (r.getL1ToL2Messages p).map List.length = some mns.length := by
  have h1 : r.getL1ToL2Messages p
      = some (mns.map fun mn =>
          L1ToL2Message.fromRetryableCreationId p
            (L1ToL2Message.calculateRetryableCreationId p.chainId mn) mn) := by
    unfold L1TransactionReceipt.getL1ToL2Messages
    rw [hm]
    cases mns with
    | nil => rfl
    | cons a as => simp
  refine ⟨h1, ?_⟩
  rw [h1]
  simp

/-- Witness for C5: the two extracted sequence numbers of `testReceipt` give
two messages carrying the computed identifiers. -/
theorem getL1ToL2Messages_resolution_witness :
    testReceipt.getL1ToL2Messages testProvider
        = some ([5, 6].map fun mn =>
            L1ToL2Message.fromRetryableCreationId testProvider
              (L1ToL2Message.calculateRetryableCreationId testProvider.chainId mn) mn)
    ∧ (testReceipt.getL1ToL2Messages testProvider).map List.length
        = some [5, 6].length :=
  getL1ToL2Messages_resolution testProvider testReceipt [5, 6] rfl

/-- C3: the four-way branch of `getL1ToL2Message`: zero messages throws
`NoMessageFound` with the transaction hash; an explicit index at least the
count throws `IndexOutOfRange` with the index and the count; no index and
more than one message throws `AmbiguousMessageCount` with the count; no
index and exactly one message returns it; an in-range index returns the
message at that index. -/
theorem getL1ToL2Message_branching (p : SignerOrProvider)
    (r : L1TransactionReceipt) (msgs : List L1ToL2Message)
    (hm : r.getL1ToL2Messages p = some msgs) :
    (msgs = [] → ∀ messageIndex, r.getL1ToL2Message p messageIndex
        = some (Except.error (ArbTsError.noMessageFound r.transactionHash)))
    ∧ (∀ i : Int, msgs ≠ [] → (msgs.length : Int) ≤ i →
        r.getL1ToL2Message p (some i)
          = some (Except.error
              (ArbTsError.indexOutOfRange r.transactionHash i msgs.length)))
    ∧ (1 < msgs.length → r.getL1ToL2Message p none
        = some (Except.error
            (ArbTsError.ambiguousMessageCount r.transactionHash msgs.length)))
    ∧ (∀ m, msgs = [m] → r.getL1ToL2Message p none = some (Except.ok (some m)))
    ∧ (∀ i : Nat, ∀ hi : i < msgs.length, r.getL1ToL2Message p (some i)
        = some (Except.ok (some (msgs.get ⟨i, hi⟩)))) := by
  unfold L1TransactionReceipt.getL1ToL2Message
  rw [hm]
  refine ⟨?_, ?_, ?_, ?_, ?_⟩
  · rintro rfl messageIndex
    simp
  · intro i hne hle
    have hlen : msgs.length ≠ 0 := fun h0 => hne (List.length_eq_zero.mp h0)
    simp [hlen, hle]
  · intro hgt
    have hlen : msgs.length ≠ 0 := by omega
    simp [hlen, hgt]
  · rintro m rfl
    simp [jsIndex]
  · intro i hi
    have hlen : msgs.length ≠ 0 := by omega
    have hle : ¬ ((msgs.length : Int) ≤ (i : Int)) := by
      exact_mod_cast Nat.not_le.mpr hi
    simp [hlen, hle, jsIndex, List.getElem?_eq_getElem hi]
    rw [if_neg (Nat.not_le.mpr hi), if_neg (by omega)]

/-- Witness for C3: `testReceipt` yields two messages, so `getL1ToL2Message`
with no index throws `AmbiguousMessageCount` reporting count 2. -/
theorem getL1ToL2Message_branching_witness :
    testReceipt.getL1ToL2Message testProvider none
      = some (Except.error (ArbTsError.ambiguousMessageCount 100 2)) :=
  (getL1ToL2Message_branching testProvider testReceipt testMsgs rfl).2.2.1
    (by decide)

/-- C10: with at least one message and a negative explicit index, the range
check `index >= count` does not fire, no error is thrown, and the array
lookup selects no element: the call resolves with no message. -/
theorem getL1ToL2Message_negative_index (p : SignerOrProvider)
    (r : L1TransactionReceipt) (msgs : List L1ToL2Message)
    (hm : r.getL1ToL2Messages p = some msgs) (hne : msgs ≠ [])
    (i : Int) (hi : i < 0) :
    r.getL1ToL2Message p (some i) = some (Except.ok none) := by
  unfold L1TransactionReceipt.getL1ToL2Message
  rw [hm]
  have hlen : msgs.length ≠ 0 := fun h0 => hne (List.length_eq_zero.mp h0)
  have hle : ¬ ((msgs.length : Int) ≤ i) := by omega
  simp [hlen, hle, jsIndex, hi]

/-- Witness for C10: `testReceipt` yields two messages and index `-1`
resolves with no message rather than an error. -/
theorem getL1ToL2Message_negative_index_witness :
    testReceipt.getL1ToL2Message testProvider (some (-1))
      = some (Except.ok none) :=
  getL1ToL2Message_negative_index testProvider testReceipt testMsgs rfl
    (List.cons_ne_nil _ _) (-1) (by decide)

/-- Helper: decoding a run of logs that all decode yields their decoded
tuples in order. -/
theorem decodeDepositLogs_ok (i : Nat) (ls : List Log)
    (h : ∀ log ∈ ls, (parseDepositLog log).isSome) :
    decodeDepositLogs i ls
      = Except.ok (ls.map fun log => (parseDepositLog log).getD default) := by
  induction ls generalizing i with
  | nil => rfl
  | cons a as ih =>
    have ha : (parseDepositLog a).isSome := h a (List.mem_cons_self a as)
    have has : ∀ log ∈ as, (parseDepositLog log).isSome :=
      fun log hl => h log (List.mem_cons_of_mem a hl)
    obtain ⟨args, hargs⟩ := Option.isSome_iff_exists.mp ha
    unfold decodeDepositLogs
    rw [hargs, ih (i + 1) has]
    simp [hargs]

/-- Helper: decoding a run of logs whose first failure is at position
`pre.length` fails with `logDecodeError (i + pre.length)`. -/
theorem decodeDepositLogs_error (i : Nat) (pre : List Log) (log : Log)
    (post : List Log) (hpre : ∀ l ∈ pre, (parseDepositLog l).isSome)
    (hlog : parseDepositLog log = none) :
    decodeDepositLogs i (pre ++ log :: post)
      = Except.error (LogDecodeError.logDecodeError (i + pre.length)) := by
  induction pre generalizing i with
  | nil =>
    rw [List.nil_append]
    simp only [decodeDepositLogs, hlog]
    simp
  | cons a as ih =>
    have ha : (parseDepositLog a).isSome := hpre a (List.mem_cons_self a as)
    have has : ∀ l ∈ as, (parseDepositLog l).isSome :=
      fun l hl => hpre l (List.mem_cons_of_mem a hl)
    obtain ⟨args, hargs⟩ := Option.isSome_iff_exists.mp ha
    have harith : i + 1 + as.length = i + (a :: as).length := by
      simp only [List.length_cons]
      omega
    rw [List.cons_append]
    simp only [decodeDepositLogs, hargs, ih (i + 1) has, harith]

/-- C6: `getDepositEvents` decodes exactly the logs whose `topics[0]` equals
the `DepositInitiated` event-signature hash: when every matching log fits the
schema it returns their decoded argument tuples in log order (wrong-signature
logs are excluded by the filter), and its only failure is a schema mismatch
of a matching log, which fails with `LogDecodeError` carrying the offending
log's index. -/
theorem getDepositEvents_decoding (r : L1TransactionReceipt) :
    ((∀ log ∈ r.logs.filter isDepositInitiatedLog, (parseDepositLog log).isSome) →
        r.getDepositEvents
          = Except.ok ((r.logs.filter isDepositInitiatedLog).map
              fun log => (parseDepositLog log).getD default))
    ∧ (∀ pre log post,
        r.logs.filter isDepositInitiatedLog = pre ++ log :: post →
        (∀ l ∈ pre, (parseDepositLog l).isSome) →
        parseDepositLog log = none →
        r.getDepositEvents
          = Except.error (LogDecodeError.logDecodeError pre.length)) := by
  unfold L1TransactionReceipt.getDepositEvents
  constructor
  · intro h
    exact decodeDepositLogs_ok 0 _ h
  · intro pre log post hsplit hpre hlog
    rw [hsplit, decodeDepositLogs_error 0 pre log post hpre hlog,
      Nat.zero_add]

/-- Witness for C6: the deposit receipt's one matching, well-formed log
decodes to its encoded argument values; the unrelated log is excluded. -/
theorem getDepositEvents_decoding_witness :
    testDepositReceipt.getDepositEvents
      = Except.ok [(⟨20, 21, 22, 23, 1000⟩ : DepositArgs)] :=
  ((getDepositEvents_decoding testDepositReceipt).1 (by decide)).trans (by rfl)
